import Mathlib

set_option linter.unusedVariables false

/-!
Verification of the pure logic of `src/server/youtube_downloader.py`.

The Python module is a CLI shim around the external `yt_dlp` library.
We embed its data model and operations shallowly:

* `QUALITY_MAP`, `parse_quality_height`, `build_format_selector` are direct
  translations of the pure helper functions (lines 10-41 of the source).
* The `ydl_opts` dictionary built inside `download_video` (lines 55-104)
  becomes the record `YdlOpts` produced by `build_ydl_opts`.
* The behaviour of the external library is an oracle `LibBehavior`:
  `extract_info` either raises (modelled as `Except.error`), returns `None`,
  or returns an info dictionary; `download_exc` is the exception raised by
  `ydl.download`, if any; `dir_files` is the directory listing that
  `Path(output_dir).iterdir()` observes after the download.
* `download_video` and `get_video_info` return the Python result dicts as
  association lists of JSON values (`List (String × JVal)`).
* The `__main__` block (lines 204-225) becomes `mainDispatch` / `pyMain`;
  an out-of-range `sys.argv` subscript is the `MainAction.indexError`
  outcome (CPython terminates with exit code 1 and no stdout output there).
-/

/-- JSON-like values appearing in the result dictionaries. -/
inductive JVal
  | s (v : String)
  | n (v : Nat)
  | b (v : Bool)
  | list (v : List JVal)

/-- Source lines 10-17: the quality dictionary, as an association list. -/
def QUALITY_MAP : List (String × Nat) :=
  [("2160p", 2160), ("1440p", 1440), ("1080p", 1080),
   ("720p", 720), ("480p", 480), ("360p", 360)]

/-- Source lines 19-23: convert UI quality string to height number. -/
def parse_quality_height (quality : String) : Nat :=
  if quality = "best" then 9999
  else (QUALITY_MAP.lookup quality).getD 720

/-- Source lines 25-41: build the yt-dlp format selector string. -/
def build_format_selector (quality format_type : String) : String :=
  let height := parse_quality_height quality
  if format_type = "mp4" then
    if height ≥ 1080 then
      "bestvideo[height<=" ++ toString height ++ "][vcodec^=avc1][ext=mp4]+bestaudio[acodec^=mp4a][ext=m4a]/bestvideo[height<=" ++ toString height ++ "][ext=mp4]+bestaudio[ext=m4a]/bestvideo[height<=" ++ toString height ++ "]+bestaudio/best[height<=" ++ toString height ++ "]"
    else
      "best[height<=" ++ toString height ++ "][ext=mp4]/bestvideo[height<=" ++ toString height ++ "][vcodec^=avc1][ext=mp4]+bestaudio[acodec^=mp4a]/best[height<=" ++ toString height ++ "]"
  else if format_type = "webm" then
    "bestvideo[height<=" ++ toString height ++ "][ext=webm]+bestaudio[ext=webm]/bestvideo[height<=" ++ toString height ++ "]+bestaudio/best[height<=" ++ toString height ++ "]"
  else
    "bestvideo[height<=" ++ toString height ++ "]+bestaudio/best[height<=" ++ toString height ++ "]"

/-- Substring test on character lists (Python `pat in hay`). -/
def containsSub (hay pat : List Char) : Bool :=
  match hay with
  | [] => pat.isEmpty
  | _ :: rest => pat.isPrefixOf hay || containsSub rest pat

/-- Substring test on strings (Python `pat in hay`). -/
def strContains (hay pat : String) : Bool :=
  containsSub hay.data pat.data

/-- Split a character list on a separator character. -/
def splitCharAux (sep : Char) : List Char → List Char → List (List Char)
  | [], cur => [cur.reverse]
  | c :: rest, cur =>
    if c = sep then cur.reverse :: splitCharAux sep rest []
    else splitCharAux sep rest (c :: cur)

/-- The yt-dlp format alternatives of a selector: the pieces between slashes. -/
def splitOnSlash (s : String) : List String :=
  (splitCharAux '/' s.data []).map String.mk

/-- C1: a quality string that is none of the six table keys and not best is
parsed as 720, and the selector built for it is the same one built for the
720p key, i.e. the selector is built with height 720. -/
theorem unknown_quality_defaults_to_720 (q : String)
    (h : q ∉ ["2160p", "1440p", "1080p", "720p", "480p", "360p", "best"]) :
    parse_quality_height q = 720 ∧
    ∀ ft : String, build_format_selector q ft = build_format_selector "720p" ft := by
  simp only [List.mem_cons, List.not_mem_nil, or_false, not_or] at h
  obtain ⟨h1, h2, h3, h4, h5, h6, h7⟩ := h
  have hp : parse_quality_height q = 720 := by
    unfold parse_quality_height QUALITY_MAP
    rw [if_neg h7]
    have b1 : (q == "2160p") = false := beq_eq_false_iff_ne.mpr h1
    have b2 : (q == "1440p") = false := beq_eq_false_iff_ne.mpr h2
    have b3 : (q == "1080p") = false := beq_eq_false_iff_ne.mpr h3
    have b4 : (q == "720p") = false := beq_eq_false_iff_ne.mpr h4
    have b5 : (q == "480p") = false := beq_eq_false_iff_ne.mpr h5
    have b6 : (q == "360p") = false := beq_eq_false_iff_ne.mpr h6
    simp [List.lookup, b1, b2, b3, b4, b5, b6]
  refine ⟨hp, fun ft => ?_⟩
  have hp720 : parse_quality_height "720p" = 720 := by decide
  simp only [build_format_selector, hp, hp720]

/-- Witness for C1 at the concrete unknown quality string ultra. -/
theorem unknown_quality_defaults_to_720_witness :
    parse_quality_height "ultra" = 720 ∧
    ∀ ft : String, build_format_selector "ultra" ft = build_format_selector "720p" ft :=
  unknown_quality_defaults_to_720 "ultra" (by decide)

/-- C8: the quality string best parses to 9999, and for every format type the
height constraint appearing in every alternative of the selector built for
best is height<=9999. -/
theorem best_maps_to_9999 :
    parse_quality_height "best" = 9999 ∧
    ∀ ft : String, ∀ alt ∈ splitOnSlash (build_format_selector "best" ft),
      strContains alt "[height<=9999]" = true := by
  refine ⟨by decide, fun ft => ?_⟩
  by_cases h1 : ft = "mp4"
  · subst h1; decide
  · by_cases h2 : ft = "webm"
    · subst h2; decide
    · simp only [build_format_selector, h1, h2, if_false]
      decide

/-- Witness for C8 at format type mp4 and the first selector alternative. -/
theorem best_maps_to_9999_witness :
    strContains "bestvideo[height<=9999][vcodec^=avc1][ext=mp4]+bestaudio[acodec^=mp4a][ext=m4a]" "[height<=9999]" = true :=
  best_maps_to_9999.2 "mp4" _ (by decide)

/-- C5: for every key of QUALITY_MAP and format type mp4 or webm, every
slash-separated alternative of the built selector contains the clause
height<=QUALITY_MAP[q]; the selector is a plain function of the pair, read
off the table. -/
theorem selector_constrains_all_alternatives (p : String × Nat) (hp : p ∈ QUALITY_MAP)
    (ft : String) (hf : ft ∈ ["mp4", "webm"]) :
    ∀ alt ∈ splitOnSlash (build_format_selector p.1 ft),
      strContains alt ("[height<=" ++ toString p.2 ++ "]") = true := by
  fin_cases hp <;> fin_cases hf <;> decide

/-- Witness for C5 at the 720p key, format mp4, first selector alternative. -/
theorem selector_constrains_all_alternatives_witness :
    strContains "best[height<=720][ext=mp4]" ("[height<=" ++ toString 720 ++ "]") = true :=
  selector_constrains_all_alternatives ("720p", 720) (by decide) "mp4" (by decide)
    "best[height<=720][ext=mp4]" (by decide)

/-- Source lines 94-98: a yt-dlp post-processor directive. -/
structure PostProcessor where
  key : String
  preferredcodec : String
  preferredquality : String
deriving DecidableEq

/-- Source lines 55-104: the ydl_opts dictionary handed to yt_dlp.YoutubeDL,
as a record. Keys absent from the dictionary are the empty defaults. -/
structure YdlOpts where
  format : String
  outtmpl : String
  use_po_token : Bool
  http_headers : List (String × String)
  retries : Nat
  socket_timeout : Nat
  sleep_interval : Nat
  max_sleep_interval : Nat
  quiet : Bool
  no_warnings : Bool
  player_client : List String
  postprocessors : List PostProcessor
  merge_output_format : Option String
  postprocessor_args : Option (List String)
deriving DecidableEq

/-- Source lines 52-104: the configuration built inside download_video before
the library is invoked (format selector, fixed headers and knobs, then the
audio or mp4 specific overrides). -/
def build_ydl_opts (quality format_type output_dir : String) : YdlOpts :=
  let base : YdlOpts := {
    format := build_format_selector quality format_type,
    outtmpl := output_dir ++ "/%(title)s.%(ext)s",
    use_po_token := true,
    http_headers := [
      ("User-Agent", "Mozilla/5.0 (Windows NT 10.0; Win64; x64) AppleWebKit/537.36 (KHTML, like Gecko) Chrome/120.0.0.0 Safari/537.36"),
      ("Accept", "text/html,application/xhtml+xml,application/xml;q=0.9,image/webp,*/*;q=0.8"),
      ("Accept-Language", "en-US,en;q=0.9"),
      ("Accept-Encoding", "gzip, deflate"),
      ("DNT", "1"),
      ("Connection", "keep-alive"),
      ("Upgrade-Insecure-Requests", "1")],
    retries := 3,
    socket_timeout := 30,
    sleep_interval := 2,
    max_sleep_interval := 5,
    quiet := true,
    no_warnings := true,
    player_client := ["android", "web"],
    postprocessors := [],
    merge_output_format := none,
    postprocessor_args := none }
  if format_type ∈ ["mp3", "m4a"] then
    { base with
      format := "bestaudio/best",
      postprocessors := [{ key := "FFmpegExtractAudio",
                           preferredcodec := format_type,
                           preferredquality := "192" }] }
  else if format_type = "mp4" then
    { base with
      merge_output_format := some "mp4",
      postprocessor_args := some ["-movflags", "+faststart"] }
  else base

/-- C7: parse_quality_height, build_format_selector and the configuration
record are functions of their inputs: two runs on equal inputs give equal
outputs, so the same configuration is handed to the library every time. -/
theorem quality_pipeline_deterministic (q1 q2 f1 f2 d1 d2 : String)
    (hq : q1 = q2) (hf : f1 = f2) (hd : d1 = d2) :
    parse_quality_height q1 = parse_quality_height q2 ∧
    build_format_selector q1 f1 = build_format_selector q2 f2 ∧
    build_ydl_opts q1 f1 d1 = build_ydl_opts q2 f2 d2 := by
  subst hq; subst hf; subst hd
  exact ⟨rfl, rfl, rfl⟩

/-- Witness for C7 at two equal concrete input triples. -/
theorem quality_pipeline_deterministic_witness :
    parse_quality_height "best" = parse_quality_height "best" ∧
    build_format_selector "best" "mp4" = build_format_selector "best" "mp4" ∧
    build_ydl_opts "best" "mp4" "/tmp/downloads" = build_ydl_opts "best" "mp4" "/tmp/downloads" :=
  quality_pipeline_deterministic "best" "best" "mp4" "mp4" "/tmp/downloads" "/tmp/downloads"
    rfl rfl rfl

/-- C9: for audio format types mp3 and m4a the quality argument does not
influence the configuration: any two qualities give the identical record,
whose format is bestaudio/best with one audio extraction post-processor at
preferred quality 192. -/
theorem audio_config_quality_independent (q1 q2 ft dir : String)
    (h : ft = "mp3" ∨ ft = "m4a") :
    build_ydl_opts q1 ft dir = build_ydl_opts q2 ft dir ∧
    (build_ydl_opts q1 ft dir).format = "bestaudio/best" ∧
    (build_ydl_opts q1 ft dir).postprocessors =
      [{ key := "FFmpegExtractAudio", preferredcodec := ft, preferredquality := "192" }] := by
  rcases h with h | h <;> subst h <;> exact ⟨rfl, rfl, rfl⟩

/-- Witness for C9 at qualities 720p and 1080p with format mp3. -/
theorem audio_config_quality_independent_witness :
    build_ydl_opts "720p" "mp3" "/tmp/downloads" = build_ydl_opts "1080p" "mp3" "/tmp/downloads" ∧
    (build_ydl_opts "720p" "mp3" "/tmp/downloads").format = "bestaudio/best" ∧
    (build_ydl_opts "720p" "mp3" "/tmp/downloads").postprocessors =
      [{ key := "FFmpegExtractAudio", preferredcodec := "mp3", preferredquality := "192" }] :=
  audio_config_quality_independent "720p" "1080p" "mp3" "/tmp/downloads" (Or.inl rfl)

/-- One entry of the formats list in the info dictionary returned by the
library; height and ext may be absent (Python .get returning None). -/
structure Fmt where
  height : Option Nat
  ext : Option String
deriving DecidableEq

/-- The info dictionary returned by ydl.extract_info, restricted to the keys
the source reads. -/
structure InfoDict where
  title : Option String
  duration : Option Nat
  thumbnail : Option String
  view_count : Option Nat
  uploader : Option String
  upload_date : Option String
  formats : List Fmt

/-- One directory entry observed by Path(output_dir).iterdir(). -/
structure PyFile where
  name : String
  path : String
  is_file : Bool
  ctime : Nat

/-- Oracle for the effects of the external library and the filesystem in one
invocation: what extract_info yields (Except.error e models a raised
exception, Except.ok none a None return), whether ydl.download raises, and
the directory listing seen afterwards. -/
structure LibBehavior where
  extract_info : Except String (Option InfoDict)
  download_exc : Option String
  dir_files : List PyFile

/-- Source lines 149-153: the error dictionary produced by the except block
of download_video. -/
def download_error (e : String) : List (String × JVal) :=
  [("success", JVal.b false), ("error", JVal.s e),
   ("message", JVal.s ("Download failed: " ++ e))]

/-- Source lines 122-130 and 136-144: the success dictionary of
download_video. -/
def download_ok (filename filepath title : String) (duration : Nat)
    (format_type quality : String) : List (String × JVal) :=
  [("success", JVal.b true), ("filename", JVal.s filename),
   ("filepath", JVal.s filepath), ("title", JVal.s title),
   ("duration", JVal.n duration), ("format", JVal.s format_type),
   ("quality", JVal.s quality)]

/-- Python str.replace with the slash and underscore characters of line 121. -/
def pyReplaceSlash (s : String) : String :=
  String.mk (s.data.map (fun c => if c = '/' then '_' else c))

/-- Source lines 43-153: download_video, with the library and filesystem
effects supplied by the oracle. Every raised exception lands in the except
block, which returns the error dictionary. The first directory entry that is
a file and contains the sanitised title is returned; otherwise the entry
with maximal ctime (first maximum, as Python max); otherwise the not-found
error. -/
def download_video (lib : LibBehavior) (url quality format_type output_dir : String) :
    List (String × JVal) :=
  match lib.extract_info with
  | Except.error e => download_error e
  | Except.ok none => download_error "Failed to extract video information"
  | Except.ok (some info) =>
    let title := info.title.getD "Unknown"
    let duration := info.duration.getD 0
    match lib.download_exc with
    | some e => download_error e
    | none =>
      match lib.dir_files.find? (fun f => f.is_file && strContains f.name (pyReplaceSlash title)) with
      | some f => download_ok f.name f.path title duration format_type quality
      | none =>
        match lib.dir_files with
        | [] => download_error "Downloaded file not found"
        | f0 :: rest =>
          let latest := rest.foldl (fun acc x => if x.ctime > acc.ctime then x else acc) f0
          download_ok latest.name latest.path title duration format_type quality

/-- Source lines 179-183: the set of truthy heights seen in the formats list,
as a duplicate-free list in first-seen order. -/
def addHeight (acc : List Nat) (f : Fmt) : List Nat :=
  match f.height with
  | some h => if h ≠ 0 then (if h ∈ acc then acc else acc ++ [h]) else acc
  | none => acc

/-- Fold of addHeight over the formats list (the qualities set). -/
def extractHeights (formats : List Fmt) : List Nat :=
  formats.foldl addHeight []

/-- Source lines 179-183: the set of truthy extensions seen in the formats
list, as a duplicate-free list in first-seen order. -/
def addExt (acc : List String) (f : Fmt) : List String :=
  match f.ext with
  | some e => if e ≠ "" then (if e ∈ acc then acc else acc ++ [e]) else acc
  | none => acc

/-- Fold of addExt over the formats list (the format_types set). -/
def extractExts (formats : List Fmt) : List String :=
  formats.foldl addExt []

/-- Source line 193: the availableQualities value: the distinct heights
sorted in descending order and rendered as height strings, or the default
list when empty. -/
def availableQualities (formats : List Fmt) : List String :=
  let sortedQ := (List.insertionSort (fun a b => a ≥ b) (extractHeights formats)).map
    (fun h => toString h ++ "p")
  if sortedQ = [] then ["720p", "480p", "360p"] else sortedQ

/-- Source line 194: the availableFormats value: the distinct extensions, or
the default list when empty. -/
def availableFormats (formats : List Fmt) : List String :=
  let l := extractExts formats
  if l = [] then ["mp4", "webm", "mp3", "m4a"] else l

/-- Source lines 198-202: the error dictionary of get_video_info. -/
def info_error (e : String) : List (String × JVal) :=
  [("success", JVal.b false), ("error", JVal.s e),
   ("message", JVal.s ("Failed to get video info: " ++ e))]

/-- Source lines 155-202: get_video_info with the library effects supplied by
the oracle. -/
def get_video_info (lib : LibBehavior) (url : String) : List (String × JVal) :=
  match lib.extract_info with
  | Except.error e => info_error e
  | Except.ok none => info_error "Failed to extract video information"
  | Except.ok (some info) =>
    [("success", JVal.b true),
     ("title", JVal.s (info.title.getD "Unknown")),
     ("thumbnail", JVal.s (info.thumbnail.getD "")),
     ("duration", JVal.n (info.duration.getD 0)),
     ("views", JVal.n (info.view_count.getD 0)),
     ("channel", JVal.s (info.uploader.getD "Unknown")),
     ("uploadDate", JVal.s (info.upload_date.getD "Unknown")),
     ("availableQualities", JVal.list ((availableQualities info.formats).map JVal.s)),
     ("availableFormats", JVal.list ((availableFormats info.formats).map JVal.s))]

/-- Outcome of the argument handling in the __main__ block, lines 204-225. -/
inductive MainAction
  | errorMissingArgs
  | indexError
  | runInfo (url : String)
  | runDownload (url quality format_type : String)
  | errorInvalidAction
deriving DecidableEq

/-- Source lines 204-219: the argument handling of the __main__ block.
indexError is the uncaught IndexError CPython raises when sys.argv[2] is
read but absent. -/
def mainDispatch (argv : List String) : MainAction :=
  if argv.length < 2 then MainAction.errorMissingArgs
  else
    match argv[1]? with
    | none => MainAction.errorMissingArgs
    | some action =>
      if action = "info" then
        match argv[2]? with
        | none => MainAction.indexError
        | some url => MainAction.runInfo url
      else if action = "download" then
        match argv[2]? with
        | none => MainAction.indexError
        | some url =>
          MainAction.runDownload url
            (if 3 < argv.length then argv[3]?.getD "" else "best")
            (if 4 < argv.length then argv[4]?.getD "" else "mp4")
      else MainAction.errorInvalidAction

/-- Source lines 204-225: observable behaviour of one process invocation:
the JSON object printed to stdout (none when CPython dies on an uncaught
IndexError, which prints only a traceback to stderr) and the exit code
(1 for the two error prints and for an uncaught exception, else 0). -/
def pyMain (lib : LibBehavior) (argv : List String) :
    Option (List (String × JVal)) × Nat :=
  match mainDispatch argv with
  | MainAction.errorMissingArgs =>
    (some [("success", JVal.b false), ("error", JVal.s "Missing arguments")], 1)
  | MainAction.indexError => (none, 1)
  | MainAction.runInfo url => (some (get_video_info lib url), 0)
  | MainAction.runDownload url q ft =>
    (some (download_video lib url q ft "/tmp/downloads"), 0)
  | MainAction.errorInvalidAction =>
    (some [("success", JVal.b false), ("error", JVal.s "Invalid action")], 1)

/-- A fixed oracle in which the library raises on extract_info. -/
def sampleLib : LibBehavior :=
  { extract_info := Except.error "boom", download_exc := none, dir_files := [] }

/-- The JSON error object shape: success false, string error and message. -/
def isErrorObject (r : List (String × JVal)) : Prop :=
  r.lookup "success" = some (JVal.b false) ∧
  (∃ s, r.lookup "error" = some (JVal.s s)) ∧
  (∃ m, r.lookup "message" = some (JVal.s m))

/-- The download_video error dictionary is a JSON error object. -/
theorem download_error_isErrorObject (e : String) : isErrorObject (download_error e) :=
  ⟨rfl, ⟨e, rfl⟩, ⟨"Download failed: " ++ e, rfl⟩⟩

/-- The get_video_info error dictionary is a JSON error object. -/
theorem info_error_isErrorObject (e : String) : isErrorObject (info_error e) :=
  ⟨rfl, ⟨e, rfl⟩, ⟨"Failed to get video info: " ++ e, rfl⟩⟩

/-- C3: when the library raises, in extract_info or in download, no exception
escapes download_video or get_video_info: the returned dictionary is the JSON
error object with success false and string valued error and message. -/
theorem library_exceptions_become_error_json (lib : LibBehavior)
    (url q ft dir e : String) :
    ((lib.extract_info = Except.error e ∨ lib.download_exc = some e) →
      isErrorObject (download_video lib url q ft dir)) ∧
    (lib.extract_info = Except.error e → isErrorObject (get_video_info lib url)) := by
  constructor
  · intro h
    unfold download_video
    cases hE : lib.extract_info with
    | error e2 => exact download_error_isErrorObject e2
    | ok oi =>
      cases oi with
      | none => exact download_error_isErrorObject _
      | some info =>
        rcases h with h | h
        · rw [hE] at h; cases h
        · rw [h]
          exact download_error_isErrorObject e
  · intro h
    unfold get_video_info
    rw [h]
    exact info_error_isErrorObject e

/-- Witness for C3 with an oracle whose extract_info raises boom. -/
theorem library_exceptions_become_error_json_witness :
    isErrorObject (download_video sampleLib "u" "best" "mp4" "/tmp/downloads") ∧
    isErrorObject (get_video_info sampleLib "u") :=
  ⟨(library_exceptions_become_error_json sampleLib "u" "best" "mp4" "/tmp/downloads" "boom").1
      (Or.inl rfl),
   (library_exceptions_become_error_json sampleLib "u" "best" "mp4" "/tmp/downloads" "boom").2
      rfl⟩

/-- C4: every download_video result has one of exactly two key sets, decided
by the success flag alone: the seven success keys with success true, or the
three error keys with success false. -/
theorem download_result_two_shapes (lib : LibBehavior) (url q ft dir : String) :
    ((download_video lib url q ft dir).map Prod.fst =
        ["success", "filename", "filepath", "title", "duration", "format", "quality"] ∧
      (download_video lib url q ft dir).lookup "success" = some (JVal.b true)) ∨
    ((download_video lib url q ft dir).map Prod.fst = ["success", "error", "message"] ∧
      (download_video lib url q ft dir).lookup "success" = some (JVal.b false)) := by
  unfold download_video
  cases hE : lib.extract_info with
  | error e => right; exact ⟨rfl, rfl⟩
  | ok oi =>
    cases oi with
    | none => right; exact ⟨rfl, rfl⟩
    | some info =>
      cases hD : lib.download_exc with
      | some e => right; exact ⟨rfl, rfl⟩
      | none =>
        simp only []
        cases hF : List.find?
            (fun f => f.is_file && strContains f.name
              (pyReplaceSlash (info.title.getD "Unknown"))) lib.dir_files with
        | some f => left; exact ⟨rfl, rfl⟩
        | none =>
          cases hL : lib.dir_files with
          | nil => right; exact ⟨rfl, rfl⟩
          | cons f0 rest => left; exact ⟨rfl, rfl⟩

/-- Counterexample to C2 as stated: invoked as prog info with no URL, the
program reads sys.argv[2] out of range, so nothing is printed to stdout; the
claimed JSON error object does not appear. -/
theorem missing_url_prints_no_json :
    mainDispatch ["prog", "info"] = MainAction.indexError ∧
    (pyMain sampleLib ["prog", "info"]).1 = none ∧
    (pyMain sampleLib ["prog", "info"]).2 = 1 :=
  ⟨rfl, rfl, rfl⟩

/-- C2 amended: with no action argument at all the program prints the
Missing arguments JSON object and exits 1; with info or download but no URL
it dies on an uncaught IndexError, exiting 1 with no JSON on stdout. -/
theorem missing_args_behaviour (lib : LibBehavior) (argv : List String)
    (prog : String) (h : argv.length < 2) :
    pyMain lib argv =
      (some [("success", JVal.b false), ("error", JVal.s "Missing arguments")], 1) ∧
    pyMain lib [prog, "info"] = (none, 1) ∧
    pyMain lib [prog, "download"] = (none, 1) := by
  have hm : mainDispatch argv = MainAction.errorMissingArgs := by
    unfold mainDispatch
    rw [if_pos h]
  refine ⟨?_, rfl, rfl⟩
  unfold pyMain
  rw [hm]

/-- Witness for the amended C2 at the bare invocation with only a program
name. -/
theorem missing_args_behaviour_witness :
    pyMain sampleLib ["prog"] =
      (some [("success", JVal.b false), ("error", JVal.s "Missing arguments")], 1) ∧
    pyMain sampleLib ["prog", "info"] = (none, 1) ∧
    pyMain sampleLib ["prog", "download"] = (none, 1) :=
  missing_args_behaviour sampleLib ["prog"] "prog" (by decide)

/-- C6: whenever the first argument exists and is neither info nor download,
the program prints the Invalid action JSON object and exits with code 1. -/
theorem invalid_action_json_exit1 (lib : LibBehavior) (argv : List String)
    (a : String) (h : argv[1]? = some a) (h1 : a ≠ "info") (h2 : a ≠ "download") :
    pyMain lib argv =
      (some [("success", JVal.b false), ("error", JVal.s "Invalid action")], 1) := by
  have hlen : ¬ argv.length < 2 := by
    intro hlt
    rw [List.getElem?_eq_none (by omega)] at h
    exact Option.noConfusion h
  have hm : mainDispatch argv = MainAction.errorInvalidAction := by
    simp [mainDispatch, hlen, h, h1, h2]
  unfold pyMain
  rw [hm]

/-- Witness for C6 at the concrete invocation prog bogus. -/
theorem invalid_action_json_exit1_witness :
    pyMain sampleLib ["prog", "bogus"] =
      (some [("success", JVal.b false), ("error", JVal.s "Invalid action")], 1) :=
  invalid_action_json_exit1 sampleLib ["prog", "bogus"] "bogus" rfl
    (by decide) (by decide)

/-- Adding one height to the deduplicated accumulator keeps it duplicate
free. -/
theorem addHeight_nodup (acc : List Nat) (f : Fmt) (h : acc.Nodup) :
    (addHeight acc f).Nodup := by
  unfold addHeight
  cases f.height with
  | none => exact h
  | some hh =>
    show (if hh ≠ 0 then (if hh ∈ acc then acc else acc ++ [hh]) else acc).Nodup
    by_cases h0 : hh ≠ 0
    · rw [if_pos h0]
      by_cases hm : hh ∈ acc
      · rw [if_pos hm]; exact h
      · rw [if_neg hm]
        simp [List.nodup_append, h, hm]
    · rw [if_neg h0]; exact h

/-- The fold collecting the heights preserves freedom from duplicates. -/
theorem foldl_addHeight_nodup :
    ∀ (fs : List Fmt) (acc : List Nat), acc.Nodup → (fs.foldl addHeight acc).Nodup
  | [], _, h => h
  | f :: fs, acc, h => foldl_addHeight_nodup fs (addHeight acc f) (addHeight_nodup acc f h)

/-- The collected heights form a duplicate-free list (a set in the source). -/
theorem extractHeights_nodup (formats : List Fmt) : (extractHeights formats).Nodup :=
  foldl_addHeight_nodup formats [] List.nodup_nil

/-- A weakly descending list without duplicates is strictly descending. -/
theorem pairwise_gt_of_ge_nodup :
    ∀ {l : List Nat}, List.Pairwise (fun a b => a ≥ b) l → l.Nodup →
      List.Pairwise (fun a b => a > b) l := by
  intro l
  induction l with
  | nil => intro _ _; exact List.Pairwise.nil
  | cons a t ih =>
    intro h1 h2
    rcases List.pairwise_cons.mp h1 with ⟨hge, h1t⟩
    rcases List.pairwise_cons.mp h2 with ⟨hne, h2t⟩
    exact List.pairwise_cons.mpr
      ⟨fun b hb => lt_of_le_of_ne (hge b hb) (Ne.symm (hne b hb)), ih h1t h2t⟩

/-- The sorted height list of get_video_info is strictly descending. -/
theorem sortedHeights_chain (formats : List Fmt) :
    List.Chain' (fun a b => a > b)
      (List.insertionSort (fun a b => a ≥ b) (extractHeights formats)) := by
  have hs := List.sorted_insertionSort (fun a b => a ≥ b) (extractHeights formats)
  have hn : (List.insertionSort (fun a b => a ≥ b) (extractHeights formats)).Nodup :=
    (List.perm_insertionSort (fun a b => a ≥ b) (extractHeights formats)).nodup_iff.mpr
      (extractHeights_nodup formats)
  exact (pairwise_gt_of_ge_nodup hs hn).chain'

/-- C10: on a successful probe the availableQualities entry of the result is
a never-empty list of height strings in strictly descending numeric order,
falling back to 720p 480p 360p when no format has a height, and the
availableFormats entry falls back to mp4 webm mp3 m4a when no format has an
extension. -/
theorem info_qualities_sorted (lib : LibBehavior) (url : String) (info : InfoDict)
    (h : lib.extract_info = Except.ok (some info)) :
    (get_video_info lib url).lookup "availableQualities" =
      some (JVal.list ((availableQualities info.formats).map JVal.s)) ∧
    (get_video_info lib url).lookup "availableFormats" =
      some (JVal.list ((availableFormats info.formats).map JVal.s)) ∧
    (∃ hs : List Nat, hs ≠ [] ∧ List.Chain' (fun a b => a > b) hs ∧
      availableQualities info.formats = hs.map (fun n => toString n ++ "p")) ∧
    availableQualities info.formats ≠ [] ∧
    (extractHeights info.formats = [] →
      availableQualities info.formats = ["720p", "480p", "360p"]) ∧
    availableFormats info.formats ≠ [] ∧
    (extractExts info.formats = [] →
      availableFormats info.formats = ["mp4", "webm", "mp3", "m4a"]) := by
  have hg :
      (get_video_info lib url).lookup "availableQualities" =
        some (JVal.list ((availableQualities info.formats).map JVal.s)) ∧
      (get_video_info lib url).lookup "availableFormats" =
        some (JVal.list ((availableFormats info.formats).map JVal.s)) := by
    unfold get_video_info
    rw [h]
    exact ⟨rfl, rfl⟩
  have hex : ∃ hs : List Nat, hs ≠ [] ∧ List.Chain' (fun a b => a > b) hs ∧
      availableQualities info.formats = hs.map (fun n => toString n ++ "p") := by
    by_cases hE : extractHeights info.formats = []
    · refine ⟨[720, 480, 360], by decide,
        by norm_num [List.chain'_cons, List.chain'_singleton], ?_⟩
      have hv : availableQualities info.formats = ["720p", "480p", "360p"] := by
        simp [availableQualities, hE]
      rw [hv]
      decide
    · have hsne : List.insertionSort (fun a b => a ≥ b) (extractHeights info.formats) ≠ [] := by
        intro hnil
        apply hE
        have hlen := (List.perm_insertionSort (fun a b => a ≥ b)
          (extractHeights info.formats)).length_eq
        rw [hnil] at hlen
        exact List.length_eq_zero.mp hlen.symm
      refine ⟨List.insertionSort (fun a b => a ≥ b) (extractHeights info.formats),
        hsne, sortedHeights_chain info.formats, ?_⟩
      have hXne : (List.insertionSort (fun a b => a ≥ b)
          (extractHeights info.formats)).map (fun n => toString n ++ "p") ≠ [] :=
        fun hc => hsne (List.map_eq_nil_iff.mp hc)
      unfold availableQualities
      rw [if_neg hXne]
  obtain ⟨hs, hsne2, hchain, hmap⟩ := hex
  refine ⟨hg.1, hg.2, ⟨hs, hsne2, hchain, hmap⟩, ?_, ?_, ?_, ?_⟩
  · rw [hmap, Ne, List.map_eq_nil_iff]
    exact hsne2
  · intro hE
    simp [availableQualities, hE]
  · unfold availableFormats
    by_cases hE2 : extractExts info.formats = []
    · rw [if_pos hE2]
      simp
    · rw [if_neg hE2]
      exact hE2
  · intro hE2
    simp [availableFormats, hE2]

/-- A concrete info dictionary with two probed formats. -/
def sampleInfo : InfoDict :=
  { title := some "Video", duration := some 10, thumbnail := none,
    view_count := none, uploader := none, upload_date := none,
    formats := [{ height := some 360, ext := some "mp4" },
                { height := some 720, ext := some "webm" }] }

/-- A fixed oracle in which the library succeeds with sampleInfo. -/
def sampleLibOk : LibBehavior :=
  { extract_info := Except.ok (some sampleInfo), download_exc := none, dir_files := [] }

/-- Witness for C10 at the oracle returning sampleInfo. -/
theorem info_qualities_sorted_witness :
    (get_video_info sampleLibOk "u").lookup "availableQualities" =
      some (JVal.list ((availableQualities sampleInfo.formats).map JVal.s)) ∧
    (get_video_info sampleLibOk "u").lookup "availableFormats" =
      some (JVal.list ((availableFormats sampleInfo.formats).map JVal.s)) ∧
    (∃ hs : List Nat, hs ≠ [] ∧ List.Chain' (fun a b => a > b) hs ∧
      availableQualities sampleInfo.formats = hs.map (fun n => toString n ++ "p")) ∧
    availableQualities sampleInfo.formats ≠ [] ∧
    (extractHeights sampleInfo.formats = [] →
      availableQualities sampleInfo.formats = ["720p", "480p", "360p"]) ∧
    availableFormats sampleInfo.formats ≠ [] ∧
    (extractExts sampleInfo.formats = [] →
      availableFormats sampleInfo.formats = ["mp4", "webm", "mp3", "m4a"]) :=
  info_qualities_sorted sampleLibOk "u" sampleInfo rfl
